import Mathlib

/-!
Verification of the stream-event normalization layer of the
`cogniserve` repository (`src/cogniserve/utils/agent_router.py`).

Python objects are shallowly embedded: an external runtime object is a
finite attribute bag (association list of attribute name to value), and
`getattr(obj, name, default)` becomes a lookup with a default.  A JSON
value is the inductive `Val`.  Python `dict` manipulation (`d.update`,
`d.get`) is modelled by `dupdate` / `vget`; `.get` on a non-dict value is
an `AttributeError`, modelled in the `Except String` monad.  Formatting
functions and the SSE generator follow the source line by line.
-/

/-- A JSON-serializable Python value, as produced by the formatters. -/
inductive Val where
  | vNone : Val
  | vStr (s : String) : Val
  | vInt (n : Int) : Val
  | vBool (b : Bool) : Val
  | vList (xs : List Val) : Val
  | vDict (xs : List (String × Val)) : Val

mutual

/-- Boolean equality on `Val` (needed because automatic derivation does
not handle the nested lists). -/
def Val.beq : Val → Val → Bool
  | .vNone, .vNone => true
  | .vStr a, .vStr b => a == b
  | .vInt a, .vInt b => a == b
  | .vBool a, .vBool b => a == b
  | .vList a, .vList b => Val.beqList a b
  | .vDict a, .vDict b => Val.beqPairs a b
  | _, _ => false

/-- Boolean equality on lists of `Val`. -/
def Val.beqList : List Val → List Val → Bool
  | [], [] => true
  | a :: as, b :: bs => Val.beq a b && Val.beqList as bs
  | _, _ => false

/-- Boolean equality on association lists over `Val`. -/
def Val.beqPairs : List (String × Val) → List (String × Val) → Bool
  | [], [] => true
  | (k1, v1) :: as, (k2, v2) :: bs => k1 == k2 && Val.beq v1 v2 && Val.beqPairs as bs
  | _, _ => false

end

mutual

/-- Equality test `Val.beq` agrees with propositional equality. -/
theorem Val.beq_iff : ∀ a b : Val, Val.beq a b = true ↔ a = b
  | .vNone, b => by cases b <;> simp [Val.beq]
  | .vStr a, b => by cases b <;> simp [Val.beq]
  | .vInt a, b => by cases b <;> simp [Val.beq]
  | .vBool a, b => by cases b <;> simp [Val.beq]
  | .vList a, b => by
      cases b <;> simp [Val.beq]
      exact Val.beqList_iff a _
  | .vDict a, b => by
      cases b <;> simp [Val.beq]
      exact Val.beqPairs_iff a _

/-- Equality test `Val.beqList` agrees with propositional equality. -/
theorem Val.beqList_iff : ∀ a b : List Val, Val.beqList a b = true ↔ a = b
  | [], b => by cases b <;> simp [Val.beqList]
  | x :: xs, b => by
      cases b with
      | nil => simp [Val.beqList]
      | cons y ys =>
          simp [Val.beqList, Val.beq_iff x y, Val.beqList_iff xs ys]

/-- Equality test `Val.beqPairs` agrees with propositional equality. -/
theorem Val.beqPairs_iff : ∀ a b : List (String × Val), Val.beqPairs a b = true ↔ a = b
  | [], b => by cases b <;> simp [Val.beqPairs]
  | (k, v) :: xs, b => by
      cases b with
      | nil => simp [Val.beqPairs]
      | cons y ys =>
          obtain ⟨k2, v2⟩ := y
          simp [Val.beqPairs, Val.beq_iff v v2, Val.beqPairs_iff xs ys, and_assoc]

end

instance : DecidableEq Val := fun a b => decidable_of_iff _ (Val.beq_iff a b)

/-- An output record (Python `dict[str, Any]`), preserving insertion order. -/
abbrev Dct := List (String × Val)

/-- An external runtime object: a bag of attributes. -/
abbrev PyObj := List (String × Val)

/-- Python `getattr(o, k, default)` — defensive attribute access. -/
def pyGetD (o : PyObj) (k : String) (d : Val) : Val :=
  (List.lookup k o).getD d

/-- Python `hasattr(o, k)`. -/
def pyHas (o : PyObj) (k : String) : Bool :=
  (List.lookup k o).isSome

/-- Direct attribute read `o.k` where the attribute is known to exist
(used only behind a `hasattr` guard in the source). -/
def pyGet (o : PyObj) (k : String) : Option Val :=
  List.lookup k o

/-- Key lookup in an output record. -/
def dget (d : Dct) (k : String) : Option Val :=
  List.lookup k d

/-- Set one key of a dict, Python semantics: replace in place if the key
exists, else append at the end. -/
def setk (d : Dct) (k : String) (v : Val) : Dct :=
  if d.any (fun kv => kv.1 == k) then
    d.map (fun kv => cond (kv.1 == k) (k, v) kv)
  else
    d ++ [(k, v)]

/-- Python `d.update(kvs)` — Python dict update, in insertion order. -/
def dupdate (d : Dct) (kvs : List (String × Val)) : Dct :=
  kvs.foldl (fun acc kv => setk acc kv.1 kv.2) d

/-- Python `v.get(k)` — Python `dict.get`; raises `AttributeError` when `v` is
not a dict (the value has no `get` method). -/
def vget (v : Val) (k : String) : Except String Val :=
  match v with
  | .vDict xs => .ok ((List.lookup k xs).getD .vNone)
  | _ => .error "AttributeError: object has no attribute get"

/-- Python `x == "lit"` where `x` is an arbitrary value: true only when
`x` is that very string. -/
def isV (v : Val) (s : String) : Bool :=
  match v with
  | .vStr t => t == s
  | _ => false

/-! ## `_format_raw_response_event` (agent_router.py lines 234-306) -/

/-- Python `event.data.type if hasattr(event.data, 'type') else 'unknown'`
(the local `event_type` of `_format_raw_response_event`). -/
def rawEventType (d : PyObj) : Val :=
  (pyGet d "type").getD (.vStr "unknown")

/-- The `base_event` local of `_format_raw_response_event`. -/
def rawBase (d : PyObj) : Dct :=
  [("type", .vStr "raw_response"),
   ("event_type", rawEventType d),
   ("sequence_number", pyGetD d "sequence_number" .vNone)]

/-- The function `_format_raw_response_event`.  The argument is the attribute bag of
`event.data`.  Only the `response.created`/`response.completed` and
`response.output_item.*` branches can raise (a `.get` on a non-dict). -/
def formatRawResponseEvent (d : PyObj) : Except String Dct :=
  if pyHas d "type" then
    if isV (rawEventType d) "response.output_text.delta" then
      .ok (dupdate (rawBase d)
        [("delta", pyGetD d "delta" (.vStr "")),
         ("content_index", pyGetD d "content_index" (.vInt 0)),
         ("item_id", pyGetD d "item_id" .vNone),
         ("output_index", pyGetD d "output_index" (.vInt 0))])
    else if isV (rawEventType d) "response.reasoning_summary_text.delta" then
      .ok (dupdate (rawBase d)
        [("delta", pyGetD d "delta" (.vStr "")),
         ("reasoning", .vBool true)])
    else if isV (rawEventType d) "response.refusal.delta" then
      .ok (dupdate (rawBase d)
        [("delta", pyGetD d "delta" (.vStr "")),
         ("refusal", .vBool true)])
    else if isV (rawEventType d) "response.function_call_arguments.delta" then
      .ok (dupdate (rawBase d)
        [("delta", pyGetD d "delta" (.vStr "")),
         ("function_call", .vBool true),
         ("call_id", pyGetD d "call_id" .vNone)])
    else if isV (rawEventType d) "response.created" || isV (rawEventType d) "response.completed" then do
      let rid ← if pyHas d "response" then vget (pyGetD d "response" (.vDict [])) "id"
                else pure .vNone
      let st ← if pyHas d "response" then vget (pyGetD d "response" (.vDict [])) "status"
               else pure .vNone
      .ok (dupdate (rawBase d) [("response_id", rid), ("status", st)])
    else if isV (rawEventType d) "response.content_part.added" || isV (rawEventType d) "response.content_part.done" then
      .ok (dupdate (rawBase d)
        [("content_index", pyGetD d "content_index" (.vInt 0)),
         ("item_id", pyGetD d "item_id" .vNone)])
    else if isV (rawEventType d) "response.output_item.added" || isV (rawEventType d) "response.output_item.done" then do
      let it ← if pyHas d "item" then vget (pyGetD d "item" (.vDict [])) "type"
               else pure .vNone
      .ok (dupdate (rawBase d) [("output_index", pyGetD d "output_index" (.vInt 0)),
                         ("item_type", it)])
    else if isV (rawEventType d) "response.output_text.done" then
      .ok (dupdate (rawBase d)
        [("text", pyGetD d "text" (.vStr "")),
         ("content_index", pyGetD d "content_index" (.vInt 0)),
         ("item_id", pyGetD d "item_id" .vNone)])
    else
      .ok (rawBase d)
  else
    .ok (rawBase d)

/-! ## `_format_run_item_event` (agent_router.py lines 309-369) -/

/-- Python `getattr(event.item, k, default)`: on `None` (absent item) `getattr`
returns the default without raising. -/
def itemGetD (item : Option PyObj) (k : String) (d : Val) : Val :=
  match item with
  | some o => pyGetD o k d
  | none => d

/-- The `base_event` local of `_format_run_item_event`. -/
def runItemBase (name : String) (item : Option PyObj) : Dct :=
  [("type", .vStr "run_item"),
   ("name", .vStr name),
   ("item_type", match item with
     | some o => pyGetD o "type" .vNone
     | none => .vNone)]

/-- The function `_format_run_item_event`, given `event.name` and `event.item`.
Every access is a defensive `getattr`, so the function is total. -/
def formatRunItemEvent (name : String) (item : Option PyObj) : Dct :=
  if name == "message_output_created" then
    dupdate (runItemBase name item)
      [("role", itemGetD item "role" .vNone),
       ("status", itemGetD item "status" .vNone),
       ("message_id", itemGetD item "id" .vNone)]
  else if name == "tool_called" then
    dupdate (runItemBase name item)
      [("tool_name", itemGetD item "name" .vNone),
       ("tool_arguments", itemGetD item "arguments" .vNone),
       ("call_id", itemGetD item "id" .vNone)]
  else if name == "tool_output" then
    dupdate (runItemBase name item)
      [("tool_name", itemGetD item "name" .vNone),
       ("output", itemGetD item "output" .vNone),
       ("call_id", itemGetD item "id" .vNone)]
  else if name == "handoff_requested" then
    dupdate (runItemBase name item)
      [("target_agent", itemGetD item "target_agent_name" .vNone),
       ("reason", itemGetD item "reason" .vNone)]
  else if name == "handoff_occured" then
    dupdate (runItemBase name item)
      [("target_agent", itemGetD item "target_agent_name" .vNone),
       ("previous_agent", itemGetD item "previous_agent_name" .vNone)]
  else if name == "reasoning_item_created" then
    dupdate (runItemBase name item)
      [("reasoning_content", itemGetD item "content" .vNone)]
  else if name == "mcp_approval_requested" then
    dupdate (runItemBase name item)
      [("tool_name", itemGetD item "tool_name" .vNone),
       ("server_name", itemGetD item "server_name" .vNone)]
  else if name == "mcp_list_tools" then
    dupdate (runItemBase name item)
      [("server_name", itemGetD item "server_name" .vNone),
       ("tools", itemGetD item "tools" (.vList []))]
  else
    runItemBase name item

/-! ## Agent configuration and `_format_agent_updated_event` -/

/-- Field `Agent.instructions`: static text, `None`, or a function. -/
inductive Instr where
  | text (s : String) : Instr
  | nullInstr : Instr
  | dynamic : Instr
deriving DecidableEq

/-- Field `Agent.model`: a plain string, `None`, or a model object whose
`str()` rendering is recorded. -/
inductive MV where
  | mstr (s : String) : MV
  | mnone : MV
  | mobj (rendered : String) : MV
deriving DecidableEq

/-- Python truthiness of `agent.model` (`None` and `""` are falsy). -/
def mvTruthy : MV → Bool
  | .mstr s => !s.isEmpty
  | .mnone => false
  | .mobj _ => true

/-- Python `str(agent.model)` for a truthy model value. -/
def mvStr : MV → String
  | .mstr s => s
  | .mnone => "None"
  | .mobj r => r

/-- The relevant fields of an `agents.Agent` instance. -/
structure AgentCfg where
  name : String
  instructions : Instr
  model : MV
  tools : List String
  handoffs : List String
deriving DecidableEq

/-- The function `_format_agent_updated_event` (lines 372-382). -/
def formatAgentUpdatedEvent (a : AgentCfg) : Dct :=
  [("type", .vStr "agent_updated"),
   ("agent_name", .vStr a.name),
   ("agent_instructions", match a.instructions with
     | .text s => .vStr s
     | _ => .vStr "Dynamic instructions"),
   ("model", if mvTruthy a.model then .vStr (mvStr a.model) else .vNone),
   ("tools_count", .vInt a.tools.length),
   ("handoffs_count", .vInt a.handoffs.length)]

/-! ## `_format_stream_event` (lines 208-231) and the event stream -/

/-- A `StreamEvent` from the runtime: raw response, run item,
agent-updated, or an unrecognized class (`cls` is
`type(event).__name__`, `s` is `str(event)`, `truthy` is the event's
Python truthiness). -/
inductive StreamEvent where
  | raw (d : PyObj) : StreamEvent
  | runItem (name : String) (item : Option PyObj) : StreamEvent
  | agentUpdated (a : AgentCfg) : StreamEvent
  | other (cls : String) (s : String) (truthy : Bool) : StreamEvent
deriving DecidableEq

/-- The body of `_format_stream_event` before its `except` clause. -/
def formatStreamEventE : StreamEvent → Except String Dct
  | .raw d => formatRawResponseEvent d
  | .runItem n it => .ok (formatRunItemEvent n it)
  | .agentUpdated a => .ok (formatAgentUpdatedEvent a)
  | .other c s t =>
      .ok [("type", .vStr "unknown_event"),
           ("event_class", .vStr c),
           ("data", if t then .vStr s else .vNone)]

/-- The function `_format_stream_event`: any exception is swallowed and `None` is
returned. -/
def formatStreamEvent (e : StreamEvent) : Option Dct :=
  (formatStreamEventE e).toOption

/-- One loop iteration of `generate_stream`: emit the formatted event
only when it is truthy (`if formatted_event:` — `None` and the empty
dict are both falsy). -/
def processEvent (e : StreamEvent) : Option Dct :=
  match formatStreamEvent e with
  | some d => if d.isEmpty then none else some d
  | none => none

/-- The intermediate frames produced for a list of runtime events. -/
def intermediates (events : List StreamEvent) : List Dct :=
  events.filterMap processEvent

/-! ## JSON serialization (`json.dumps`) and SSE framing -/

/-- Minimal JSON string escaping (backslash and double quote). -/
def jEscape (s : String) : String :=
  String.join (s.data.map (fun c =>
    if c = '\\' then "\\\\"
    else if c = '"' then "\\\""
    else String.singleton c))

mutual

/-- Python `json.dumps` on a value. -/
def dumpVal : Val → String
  | .vNone => "null"
  | .vStr s => "\"" ++ jEscape s ++ "\""
  | .vInt n => toString n
  | .vBool b => if b then "true" else "false"
  | .vList xs => "[" ++ dumpValList xs ++ "]"
  | .vDict xs => "\x7b" ++ dumpValPairs xs ++ "\x7d"

/-- Comma-separated rendering of a JSON array body. -/
def dumpValList : List Val → String
  | [] => ""
  | [x] => dumpVal x
  | x :: xs => dumpVal x ++ ", " ++ dumpValList xs

/-- Comma-separated rendering of a JSON object body. -/
def dumpValPairs : List (String × Val) → String
  | [] => ""
  | [(k, v)] => "\"" ++ jEscape k ++ "\": " ++ dumpVal v
  | (k, v) :: xs => "\"" ++ jEscape k ++ "\": " ++ dumpVal v ++ ", " ++ dumpValPairs xs

end

/-- Python `json.dumps` on an output record. -/
def dumps (d : Dct) : String :=
  "\x7b" ++ dumpValPairs d ++ "\x7d"

/-- One SSE frame: `data: <json>\n\n`. -/
def encodeSSE (d : Dct) : String :=
  "data: " ++ dumps d ++ "\n\n"

/-! ## `generate_stream` (agent_router.py lines 119-150) -/

/-- Usage counters carried by `context_wrapper.usage`. -/
structure Usage where
  requests : Int
  input_tokens : Int
  output_tokens : Int
  total_tokens : Int
deriving DecidableEq

/-- The record `_extract_usage_info` builds from a `Usage`. -/
def usageDict (u : Usage) : Dct :=
  [("requests", .vInt u.requests),
   ("input_tokens", .vInt u.input_tokens),
   ("output_tokens", .vInt u.output_tokens),
   ("total_tokens", .vInt u.total_tokens)]

/-- The function `_extract_usage_info` (lines 385-398): `none` models a missing
`context_wrapper` attribute or a falsy `usage` value. -/
def extractUsageInfo (ctxUsage : Option Usage) : Option Dct :=
  ctxUsage.map usageDict

/-- The observable behaviour of one `Runner.run_streamed` result: the
events its feed yields, whether the feed then raises (`err = some msg`,
the exception's message) or ends normally (`err = none`), and the
attributes the completion frame reads. -/
structure Feed where
  events : List StreamEvent
  err : Option String
  finalOutput : Val
  currentTurn : Int
  hasUsageAttr : Bool
  ctxUsage : Option Usage
  timestamp : String
deriving DecidableEq

/-- The completion event of `generate_stream` (lines 135-140). -/
def completionEvent (f : Feed) : Dct :=
  [("type", .vStr "stream_complete"),
   ("final_output", f.finalOutput),
   ("current_turn", .vInt f.currentTurn),
   ("usage", if f.hasUsageAttr then
       match extractUsageInfo f.ctxUsage with
       | some u => .vDict u
       | none => .vNone
     else .vNone)]

/-- The error event of `generate_stream` (lines 145-149). -/
def errorEvent (msg : String) (ts : String) : Dct :=
  [("type", .vStr "error"),
   ("message", .vStr msg),
   ("timestamp", .vStr ts)]

/-- The generator `generate_stream`, at the level of output records: one record per
truthy formatted event, in feed order, then exactly one terminal record
— the completion event on normal end, the error event when the feed
raises after its yielded events. -/
def generateStream (f : Feed) : List Dct :=
  intermediates f.events ++
    [match f.err with
     | none => completionEvent f
     | some msg => errorEvent msg f.timestamp]

/-- The encoded SSE body: each record serialized as one `data:` frame. -/
def generateStreamSSE (f : Feed) : List String :=
  (generateStream f).map encodeSSE

/-! ## The sync path `run_agent` (agent_router.py lines 66-110) -/

/-- An `AgentRequest` body. -/
structure AgentRequest where
  message : String
  max_turns : Int := 10
  context : Option Dct := none
deriving DecidableEq

/-- An `AgentResponse` body. -/
structure AgentResponse where
  final_output : Val
  success : Bool := true
  error : Option String := none
  usage : Option Dct := none
  response_id : Option String := none
deriving DecidableEq

/-- The parts of a `Runner.run` result the handler reads. -/
structure RunResultSync where
  finalOutput : Val
  ctxUsage : Option Usage
  rawResponses : List (Option String)
deriving DecidableEq

/-- The function `_extract_response_id` (lines 401-408): the last raw response's id,
when the list is non-empty and the id is truthy. -/
def extractResponseId (rs : List (Option String)) : Option String :=
  match rs.getLast? with
  | some (some s) => if s.isEmpty then none else some s
  | _ => none

/-- The handler `run_agent`: the runtime call either returns a result or raises with
a message; the handler returns a 200-level `AgentResponse` either way,
never propagating the exception. -/
def runAgent (_req : AgentRequest) (outcome : Except String RunResultSync) : AgentResponse :=
  match outcome with
  | .ok r =>
      { final_output := r.finalOutput
        success := true
        error := none
        usage := (extractUsageInfo r.ctxUsage)
        response_id := extractResponseId r.rawResponses }
  | .error e =>
      { final_output := .vNone
        success := false
        error := some e }

/-! ## The info endpoint `get_agent_info` (agent_router.py lines 163-203) -/

/-- An `AgentInfo` body (`endpoints` keeps insertion order). -/
structure AgentInfo where
  name : String
  agent_name : String
  instructions : Option String
  model : Option String
  tools_count : Nat
  handoffs_count : Nat
  endpoints : List (String × String)
deriving DecidableEq

/-- The handler `get_agent_info`: a pure read of the bound agent configuration. -/
def getAgentInfo (agent : AgentCfg) (pfx : String) (agentName : String) : AgentInfo :=
  { name := agentName
    agent_name := agent.name
    instructions := match agent.instructions with
      | .text s => some s
      | .nullInstr => none
      | .dynamic => some "Dynamic instructions (function-based)"
    model := if mvTruthy agent.model then some (mvStr agent.model) else none
    tools_count := agent.tools.length
    handoffs_count := agent.handoffs.length
    endpoints := [("run", pfx ++ "/run"), ("stream", pfx ++ "/stream"), ("info", pfx ++ "/info")] }

/-! ## Helper lemmas about dict operations -/

/-- Replacing the value at key `k2` leaves lookups of a different key
unchanged. -/
theorem lookup_map_replace (k k2 : String) (v : Val) (h : k ≠ k2) :
    ∀ d : Dct,
      List.lookup k (d.map (fun kv => cond (kv.1 == k2) (k2, v) kv)) =
        List.lookup k d
  | [] => rfl
  | (a, b) :: t => by
      cases hb : (a == k2) with
      | false =>
          cases hk : (k == a) with
          | false => simp [List.lookup, hb, hk, lookup_map_replace k k2 v h t]
          | true => simp [List.lookup, hb, hk]
      | true =>
          have ha : a = k2 := by simpa using hb
          subst ha
          have hk : (k == a) = false := by simp [h]
          simp [List.lookup, hb, hk, lookup_map_replace k a v h t]

/-- Appending a binding for a different key leaves lookups unchanged. -/
theorem lookup_append_single (k k2 : String) (v : Val) (h : k ≠ k2) :
    ∀ d : Dct, List.lookup k (d ++ [(k2, v)]) = List.lookup k d
  | [] => by
      have hk : (k == k2) = false := by simp [h]
      simp [List.lookup, hk]
  | (a, b) :: t => by
      cases hk : (k == a) with
      | false => simp [List.lookup, hk, lookup_append_single k k2 v h t]
      | true => simp [List.lookup, hk]

/-- Updating via `setk` at a different key does not change a lookup. -/
theorem dget_setk_ne (d : Dct) (k k2 : String) (v : Val) (h : k ≠ k2) :
    dget (setk d k2 v) k = dget d k := by
  unfold setk dget
  split
  · exact lookup_map_replace k k2 v h d
  · exact lookup_append_single k k2 v h d

/-- A dict update whose keys avoid `k` does not change the lookup of `k`. -/
theorem dget_dupdate_notmem (kvs : List (String × Val)) (k : String)
    (h : ¬ k ∈ kvs.map Prod.fst) :
    ∀ d : Dct, dget (dupdate d kvs) k = dget d k := by
  induction kvs with
  | nil => intro d; rfl
  | cons kv rest ih =>
      intro d
      simp only [List.map_cons, List.mem_cons, not_or] at h
      calc dget (dupdate d (kv :: rest)) k
          = dget (dupdate (setk d kv.1 kv.2) rest) k := rfl
        _ = dget (setk d kv.1 kv.2) k := ih h.2 _
        _ = dget d k := dget_setk_ne _ _ _ _ h.1

/-! ## The `type` tag of every formatted event -/

/-- Every successfully formatted raw-response event is tagged
`raw_response`. -/
theorem dget_rawBase_type (d : PyObj) :
    dget (rawBase d) "type" = some (.vStr "raw_response") := rfl

theorem formatRaw_type_tag (d : PyObj) (out : Dct)
    (h : formatRawResponseEvent d = .ok out) :
    dget out "type" = some (.vStr "raw_response") := by
  unfold formatRawResponseEvent at h
  split at h
  · simp only [bind, Except.bind] at h
    repeat' split at h
    all_goals cases h
    all_goals exact dget_rawBase_type d
  · cases h
    exact dget_rawBase_type d

/-- Every formatted run-item event is tagged `run_item`. -/
theorem dget_runItemBase_type (name : String) (item : Option PyObj) :
    dget (runItemBase name item) "type" = some (.vStr "run_item") := rfl

theorem formatRunItem_type_tag (name : String) (item : Option PyObj) :
    dget (formatRunItemEvent name item) "type" = some (.vStr "run_item") := by
  unfold formatRunItemEvent
  repeat' split
  all_goals exact dget_runItemBase_type name item

/-- An emitted frame comes from a successful, truthy formatting. -/
theorem processEvent_eq_some (e : StreamEvent) (d : Dct)
    (h : processEvent e = some d) : formatStreamEventE e = .ok d := by
  unfold processEvent formatStreamEvent at h
  cases hE : formatStreamEventE e with
  | error m => rw [hE] at h; simp [Except.toOption] at h
  | ok x =>
      rw [hE] at h
      simp only [Except.toOption] at h
      split at h
      · cases h
      · cases h
        rfl

/-- A frame is terminal when its `type` tag is `stream_complete` or
`error`. -/
def isTerminal (d : Dct) : Bool :=
  match dget d "type" with
  | some (.vStr t) => t == "stream_complete" || t == "error"
  | _ => false

/-- No intermediate frame is terminal. -/
theorem processEvent_not_terminal (e : StreamEvent) (d : Dct)
    (h : processEvent e = some d) : isTerminal d = false := by
  have hfmt := processEvent_eq_some e d h
  have htag : dget d "type" = some (.vStr "raw_response") ∨
      dget d "type" = some (.vStr "run_item") ∨
      dget d "type" = some (.vStr "agent_updated") ∨
      dget d "type" = some (.vStr "unknown_event") := by
    cases e with
    | raw p => exact Or.inl (formatRaw_type_tag p d hfmt)
    | runItem n it =>
        cases hfmt
        exact Or.inr (Or.inl (formatRunItem_type_tag n it))
    | agentUpdated a =>
        cases hfmt
        exact Or.inr (Or.inr (Or.inl rfl))
    | other c s t =>
        cases hfmt
        exact Or.inr (Or.inr (Or.inr rfl))
  unfold isTerminal
  rcases htag with ht | ht | ht | ht <;> rw [ht] <;> decide

/-! ## Source-indexed intermediate frames (for the ordering invariant) -/

/-- The intermediate frames, each paired with the index of the runtime
event it was projected from. -/
def interIdx (i : Nat) (events : List StreamEvent) : List (Nat × Dct) :=
  match events with
  | [] => []
  | e :: es =>
      match processEvent e with
      | some d => (i, d) :: interIdx (i + 1) es
      | none => interIdx (i + 1) es

/-- Dropping the indices recovers exactly the emitted frame sequence. -/
theorem interIdx_map_snd (events : List StreamEvent) :
    ∀ i, (interIdx i events).map Prod.snd = intermediates events := by
  induction events with
  | nil => intro i; rfl
  | cons e es ih =>
      intro i
      unfold interIdx intermediates List.filterMap
      cases hp : processEvent e with
      | some d => simp [hp, ih (i + 1), intermediates]
      | none => simp [hp, ih (i + 1), intermediates]

/-- Every recorded source index is at least the start index. -/
theorem interIdx_mem_le (events : List StreamEvent) :
    ∀ i p, p ∈ interIdx i events → i ≤ p.1 := by
  induction events with
  | nil => intro i p hp; cases hp
  | cons e es ih =>
      intro i p hp
      unfold interIdx at hp
      cases hpe : processEvent e with
      | some d =>
          rw [hpe] at hp
          rcases List.mem_cons.mp hp with rfl | hmem
          · exact Nat.le_refl i
          · exact Nat.le_of_succ_le (ih (i + 1) p hmem)
      | none =>
          rw [hpe] at hp
          exact Nat.le_of_succ_le (ih (i + 1) p hp)

/-- Source indices are strictly increasing along the emitted frames. -/
theorem interIdx_pairwise (events : List StreamEvent) :
    ∀ i, List.Pairwise (fun a b => a.1 < b.1) (interIdx i events) := by
  induction events with
  | nil => intro i; exact List.Pairwise.nil
  | cons e es ih =>
      intro i
      unfold interIdx
      cases hpe : processEvent e with
      | some d =>
          refine List.Pairwise.cons ?_ (ih (i + 1))
          intro p hp
          exact Nat.lt_of_succ_le (interIdx_mem_le es (i + 1) p hp)
      | none => exact ih (i + 1)

/-- Every recorded frame is the projection of the event at its recorded
index. -/
theorem interIdx_source (events : List StreamEvent) :
    ∀ i p, p ∈ interIdx i events →
      ∃ e, events.get? (p.1 - i) = some e ∧ processEvent e = some p.2 := by
  induction events with
  | nil => intro i p hp; cases hp
  | cons e es ih =>
      intro i p hp
      unfold interIdx at hp
      have step : p ∈ interIdx (i + 1) es →
          ∃ e2, (e :: es).get? (p.1 - i) = some e2 ∧ processEvent e2 = some p.2 := by
        intro hmem
        obtain ⟨e2, hg, hpe2⟩ := ih (i + 1) p hmem
        have hge : i + 1 ≤ p.1 := interIdx_mem_le es (i + 1) p hmem
        refine ⟨e2, ?_, hpe2⟩
        have hd : p.1 - i = (p.1 - (i + 1)) + 1 := by omega
        rw [hd]
        simpa using hg
      cases hpe : processEvent e with
      | some d =>
          rw [hpe] at hp
          rcases List.mem_cons.mp hp with rfl | hmem
          · exact ⟨e, by simp, hpe⟩
          · exact step hmem
      | none =>
          rw [hpe] at hp
          exact step hp

/-- Each source index contributes at most one frame. -/
theorem interIdx_count_le_one (events : List StreamEvent) (i j : Nat) :
    (interIdx i events).countP (fun p => p.1 == j) ≤ 1 := by
  induction events generalizing i with
  | nil => simp [interIdx]
  | cons e es ih =>
      unfold interIdx
      cases hpe : processEvent e with
      | some d =>
          by_cases hij : i = j
          · subst hij
            have hzero : (interIdx (i + 1) es).countP (fun p => p.1 == i) = 0 := by
              rw [List.countP_eq_zero]
              intro p hp
              have := interIdx_mem_le es (i + 1) p hp
              simp only [beq_iff_eq]
              omega
            simp [List.countP_cons, hzero]
          · have : ((i, d).1 == j) = false := by simp [hij]
            simp [List.countP_cons, this, ih (i + 1)]
      | none => exact ih (i + 1)

/-! ## Text-field projection in run-item events (truncation claim) -/

/-- A `tool_called` run item with argument text `s`. -/
def toolCalledItem (s : String) : PyObj :=
  [("type", .vStr "tool_call_item"), ("name", .vStr "search"),
   ("arguments", .vStr s), ("id", .vStr "call_1")]

/-- A `tool_output` run item with output text `s`. -/
def toolOutputItem (s : String) : PyObj :=
  [("type", .vStr "tool_call_output_item"), ("name", .vStr "search"),
   ("output", .vStr s), ("id", .vStr "call_1")]

/-- A `reasoning_item_created` run item with reasoning text `s`. -/
def reasoningItem (s : String) : PyObj :=
  [("type", .vStr "reasoning_item"), ("content", .vStr s)]

/-- The `tool_arguments` field the projector emits for argument text `s`. -/
def projToolArguments (s : String) : Option Val :=
  dget (formatRunItemEvent "tool_called" (some (toolCalledItem s))) "tool_arguments"

/-- The `output` field the projector emits for tool output text `s`. -/
def projToolOutput (s : String) : Option Val :=
  dget (formatRunItemEvent "tool_output" (some (toolOutputItem s))) "output"

/-- The `reasoning_content` field the projector emits for reasoning
text `s`. -/
def projReasoningContent (s : String) : Option Val :=
  dget (formatRunItemEvent "reasoning_item_created" (some (reasoningItem s))) "reasoning_content"

/-- The first `n` characters of a string. -/
def strTake (s : String) (n : Nat) : String :=
  String.mk (s.data.take n)

/-- The truncation the specification describes: a text of length at most
`t` is kept, a longer one is cut to exactly `t` characters plus a fixed
trailing ellipsis marker. -/
def truncSpec (t : Nat) (marker : String) (s : String) : String :=
  if s.length ≤ t then s else strTake s t ++ marker

/-- The claim as the specification states it: some threshold in the
100–200 display budget and some fixed ellipsis marker govern all three
textual summary fields. -/
def claimedTruncation : Prop :=
  ∃ t : Nat, ∃ marker : String, 100 ≤ t ∧ t ≤ 200 ∧
    ∀ s : String,
      projToolArguments s = some (.vStr (truncSpec t marker s)) ∧
      projToolOutput s = some (.vStr (truncSpec t marker s)) ∧
      projReasoningContent s = some (.vStr (truncSpec t marker s))

/-- The string of `n` letters `a`. -/
def aStr (n : Nat) : String :=
  String.mk (List.replicate n 'a')

theorem aStr_length (n : Nat) : (aStr n).length = n := by
  simp [aStr, String.length_mk]

theorem strTake_length (s : String) (n : Nat) :
    (strTake s n).length = min n s.length := by
  cases s with
  | mk data => simp [strTake, String.length_mk, List.length_take]

theorem projToolArguments_id (s : String) :
    projToolArguments s = some (.vStr s) := rfl

theorem projToolOutput_id (s : String) :
    projToolOutput s = some (.vStr s) := rfl

theorem projReasoningContent_id (s : String) :
    projReasoningContent s = some (.vStr s) := rfl

/-! ## Claim C3 -/

/-- C3 counterexample: no display-budget truncation exists in
`_format_run_item_event`.  No threshold in the claimed 100–200 range and
no fixed ellipsis marker make the projector's output match the claimed
truncated form, because a 250-character and a 300-character argument are
both passed through unchanged, which would force the same
`threshold + marker` length to equal both 250 and 300. -/
theorem run_item_truncation_refuted : ¬ claimedTruncation := by
  rintro ⟨t, marker, h100, h200, h⟩
  have e1 := (h (aStr 250)).1
  have e2 := (h (aStr 300)).1
  rw [projToolArguments_id] at e1
  rw [projToolArguments_id] at e2
  have q1 : aStr 250 = truncSpec t marker (aStr 250) := by
    simpa using e1
  have q2 : aStr 300 = truncSpec t marker (aStr 300) := by
    simpa using e2
  unfold truncSpec at q1 q2
  rw [if_neg (by rw [aStr_length]; omega)] at q1
  rw [if_neg (by rw [aStr_length]; omega)] at q2
  have l1 := congrArg String.length q1
  have l2 := congrArg String.length q2
  rw [aStr_length, String.length_append, strTake_length, aStr_length] at l1
  rw [aStr_length, String.length_append, strTake_length, aStr_length] at l2
  omega

/-- C3 (amended): the three textual summary fields — tool arguments,
tool output, reasoning content — are projected unchanged regardless of
length; no truncation or ellipsis is applied, so re-projecting a
projected value is trivially a no-op. -/
theorem run_item_text_fields_passthrough (s : String) :
    projToolArguments s = some (.vStr s) ∧
    projToolOutput s = some (.vStr s) ∧
    projReasoningContent s = some (.vStr s) :=
  ⟨projToolArguments_id s, projToolOutput_id s, projReasoningContent_id s⟩

/-! ## Claim C4 -/

/-- A concrete feed ending normally, with usage available. -/
def feedC4 : Feed :=
  { events := []
    err := none
    finalOutput := .vStr "done"
    currentTurn := 1
    hasUsageAttr := true
    ctxUsage := some ⟨1, 2, 3, 5⟩
    timestamp := "1718000000.0" }

/-- C4 counterexample: the success terminal frame does not carry a
response id.  Its keys are exactly `type`, `final_output`,
`current_turn` and `usage`; looking up `response_id` yields nothing. -/
theorem completion_frame_lacks_response_id :
    generateStream feedC4 = [completionEvent feedC4] ∧
    (completionEvent feedC4).map Prod.fst =
      ["type", "final_output", "current_turn", "usage"] ∧
    dget (completionEvent feedC4) "response_id" = none := by
  refine ⟨rfl, rfl, rfl⟩

/-- C4 (amended): when the runtime feed ends normally, the single
success terminal frame is tagged `stream_complete` and carries the final
output, the current turn count and the usage counters (when the result
exposes them) — but no response id. -/
theorem completion_frame_contents (events : List StreamEvent) (fo : Val)
    (ct : Int) (cu : Usage) (ts : String) :
    generateStream ⟨events, none, fo, ct, true, some cu, ts⟩ =
      intermediates events ++ [completionEvent ⟨events, none, fo, ct, true, some cu, ts⟩] ∧
    dget (completionEvent ⟨events, none, fo, ct, true, some cu, ts⟩) "type" =
      some (.vStr "stream_complete") ∧
    dget (completionEvent ⟨events, none, fo, ct, true, some cu, ts⟩) "final_output" = some fo ∧
    dget (completionEvent ⟨events, none, fo, ct, true, some cu, ts⟩) "current_turn" =
      some (.vInt ct) ∧
    dget (completionEvent ⟨events, none, fo, ct, true, some cu, ts⟩) "usage" =
      some (.vDict (usageDict cu)) ∧
    dget (completionEvent ⟨events, none, fo, ct, true, some cu, ts⟩) "response_id" = none := by
  refine ⟨rfl, rfl, rfl, rfl, rfl, rfl⟩

/-! ## Claim C5 -/

/-- The claim as the specification states it: whenever the runtime call
raises, `run()` returns success `false`, a null final output and a
non-empty error string. -/
def claimedSyncFailureShape : Prop :=
  ∀ (req : AgentRequest) (msg : String),
    (runAgent req (.error msg)).success = false ∧
    (runAgent req (.error msg)).final_output = .vNone ∧
    ∃ s, (runAgent req (.error msg)).error = some s ∧ s ≠ ""

/-- C5 counterexample: an exception whose string rendering is empty
(e.g. `Exception()` in Python) yields `error = some ""`, so the error
text is not always a non-empty string. -/
theorem sync_error_message_may_be_empty : ¬ claimedSyncFailureShape := by
  intro h
  obtain ⟨s, hs, hne⟩ := (h ⟨"hi", 10, none⟩ "").2.2
  have hseq : s = "" := by simpa [runAgent] using hs.symm
  exact hne hseq

/-- C5 (amended): whenever the runtime call raises, `run()` returns the
structured failure `{final_output: null, success: false, error: <the
exception's message>}` (no usage, no response id) instead of propagating
the exception; the handler itself never raises, so the HTTP status stays
200-level.  The error text equals the exception's rendering and is
non-empty exactly when that rendering is. -/
theorem sync_failure_structured_response (req : AgentRequest) (msg : String) :
    runAgent req (.error msg) =
      { final_output := .vNone, success := false, error := some msg,
        usage := none, response_id := none } := rfl

/-! ## Claim C1 -/

/-- C1: on the stream path, each RuntimeEvent yields at most one
OutputEvent frame and the emitted frames appear in exactly the order of
their source events: pairing each emitted frame with the index of the
event it came from, the index sequence is strictly increasing, no index
occurs twice, every indexed frame really is the projection of the event
at that index, and dropping the indices gives exactly the emitted frame
sequence. -/
theorem stream_preserves_order_no_amplification (events : List StreamEvent) :
    (interIdx 0 events).map Prod.snd = intermediates events ∧
    List.Pairwise (fun a b => a.1 < b.1) (interIdx 0 events) ∧
    (∀ j : Nat, (interIdx 0 events).countP (fun p => p.1 == j) ≤ 1) ∧
    ∀ p ∈ interIdx 0 events,
      ∃ e, events.get? p.1 = some e ∧ processEvent e = some p.2 := by
  refine ⟨interIdx_map_snd events 0, interIdx_pairwise events 0,
    fun j => interIdx_count_le_one events 0 j, ?_⟩
  intro p hp
  have hs := interIdx_source events 0 p hp
  simpa using hs

/-! ## Claim C2 -/

/-- C2: for every finite runtime feed — empty included, ending normally
or raising — the generated stream contains exactly one terminal frame
(tagged `stream_complete` on normal end, `error` on failure), and that
frame comes after all intermediate frames, none of which is terminal. -/
theorem stream_exactly_one_terminal_frame (f : Feed) :
    (generateStream f).countP (fun d => isTerminal d) = 1 ∧
    ∃ t, generateStream f = intermediates f.events ++ [t] ∧ isTerminal t = true ∧
      dget t "type" = some (.vStr (match f.err with
        | none => "stream_complete"
        | some _ => "error")) ∧
      (intermediates f.events).countP (fun d => isTerminal d) = 0 := by
  have hzero : (intermediates f.events).countP (fun d => isTerminal d) = 0 := by
    rw [List.countP_eq_zero]
    intro d hd
    obtain ⟨e, _, hpe⟩ := List.mem_filterMap.mp hd
    simpa using processEvent_not_terminal e d hpe
  have hterm : isTerminal (match f.err with
      | none => completionEvent f
      | some msg => errorEvent msg f.timestamp) = true := by
    cases f.err with
    | none => rfl
    | some msg => rfl
  constructor
  · unfold generateStream
    rw [List.countP_append, hzero]
    cases hE : f.err with
    | none =>
        have hc : isTerminal (completionEvent f) = true := rfl
        simp [List.countP_cons, hc]
    | some msg =>
        have hc : isTerminal (errorEvent msg f.timestamp) = true := rfl
        simp [List.countP_cons, hc]
  · have htag : dget (match f.err with
        | none => completionEvent f
        | some msg => errorEvent msg f.timestamp) "type" =
        some (.vStr (match f.err with
          | none => "stream_complete"
          | some _ => "error")) := by
      cases f.err with
      | none => rfl
      | some msg => rfl
    exact ⟨_, rfl, hterm, htag, hzero⟩

/-! ## Claim C6 -/

/-- The attribute named `k` is either absent or holds a dict. -/
def dictOrAbsentB (d : PyObj) (k : String) : Bool :=
  match List.lookup k d with
  | some (.vDict _) => true
  | some _ => false
  | none => true

/-- A guarded `.get` on an attribute that is absent or a dict always
succeeds. -/
theorem vget_pyGetD_ok (d : PyObj) (k k2 : String)
    (h : dictOrAbsentB d k = true) :
    ∃ v, vget (pyGetD d k (.vDict [])) k2 = .ok v := by
  unfold dictOrAbsentB at h
  unfold pyGetD
  cases hL : List.lookup k d with
  | none => exact ⟨_, rfl⟩
  | some v =>
      rw [hL] at h
      cases v <;> first | exact ⟨_, rfl⟩ | simp at h

/-- C6 counterexample: a raw text-delta event missing the optional
`delta` attribute is formatted without raising, but the projected
`delta` field is the empty string — present and non-null — contradicting
"that field absent or null". -/
theorem missing_delta_defaults_empty_not_null :
    (formatRawResponseEvent [("type", .vStr "response.output_text.delta")]).map
        (fun out => dget out "delta") = .ok (some (.vStr "")) ∧
    Val.vStr "" ≠ Val.vNone :=
  ⟨rfl, by decide⟩

set_option maxHeartbeats 4000000 in
/-- C6 (amended): every field access on the external event is defensive
and a missing optional attribute never raises — provided any *present*
`response`/`item` attribute is dict-shaped, as the raw projector calls
`.get` on it — but the substituted default is the branch's coded default
(null for identifiers, the empty string for deltas and text, zero for
indexes, the empty list for tools), not always absent-or-null. -/
theorem projector_defensive_no_raise (d : PyObj)
    (hr : dictOrAbsentB d "response" = true)
    (hi : dictOrAbsentB d "item" = true) :
    (∃ out, formatRawResponseEvent d = .ok out) ∧
    (formatRawResponseEvent [("type", .vStr "response.output_text.delta")]).map
        (fun out => (dget out "delta", dget out "content_index",
          dget out "item_id", dget out "output_index")) =
      .ok (some (.vStr ""), some (.vInt 0), some .vNone, some (.vInt 0)) ∧
    (formatRunItemEvent "tool_called" none).map Prod.fst =
      ["type", "name", "item_type", "tool_name", "tool_arguments", "call_id"] ∧
    dget (formatRunItemEvent "tool_called" none) "tool_name" = some .vNone ∧
    dget (formatRunItemEvent "tool_called" none) "tool_arguments" = some .vNone ∧
    dget (formatRunItemEvent "mcp_list_tools" none) "tools" = some (.vList []) := by
  refine ⟨?_, rfl, rfl, rfl, rfl, rfl⟩
  obtain ⟨vr1, hv1⟩ := vget_pyGetD_ok d "response" "id" hr
  obtain ⟨vr2, hv2⟩ := vget_pyGetD_ok d "response" "status" hr
  obtain ⟨vi, hvi⟩ := vget_pyGetD_ok d "item" "type" hi
  cases hh : formatRawResponseEvent d with
  | ok out => exact ⟨out, rfl⟩
  | error m =>
      exfalso
      unfold formatRawResponseEvent at hh
      split at hh
      · simp only [bind, Except.bind] at hh
        repeat' split at hh
        all_goals try (cases hh)
        all_goals simp_all [pure, Except.pure]
      · cases hh

/-- Witness for C6 (amended): a `response.created` event with no
`response` attribute is formatted successfully. -/
theorem projector_defensive_no_raise_witness :
    dictOrAbsentB [("type", Val.vStr "response.created")] "response" = true ∧
    dictOrAbsentB [("type", Val.vStr "response.created")] "item" = true ∧
    ∃ out, formatRawResponseEvent [("type", Val.vStr "response.created")] = .ok out :=
  ⟨by decide, by decide,
    (projector_defensive_no_raise [("type", Val.vStr "response.created")]
      (by decide) (by decide)).1⟩

/-! ## Claim C7 -/

/-- A dropped event leaves the surrounding frame sequence untouched. -/
theorem intermediates_skip (e : StreamEvent) (h : processEvent e = none)
    (pre post : List StreamEvent) :
    intermediates (pre ++ e :: post) = intermediates pre ++ intermediates post := by
  unfold intermediates
  rw [List.filterMap_append]
  congr 1
  simp [List.filterMap_cons, h]

/-- C7: a formatting failure is isolated to the one event on which it
occurs: `_format_stream_event` returns `None` for it, the event is
skipped, and every event before and after it is still processed and
emitted unchanged — the failure never aborts the rest of the stream. -/
theorem formatting_failure_isolated (e : StreamEvent)
    (h : formatStreamEvent e = none) (pre post : List StreamEvent) :
    intermediates (pre ++ e :: post) = intermediates pre ++ intermediates post := by
  apply intermediates_skip
  unfold processEvent
  rw [h]

/-- A raw `response.created` event whose `response` attribute is not a
dict: its formatting raises inside `.get` and is swallowed. -/
def badRawEvent : StreamEvent :=
  .raw [("type", .vStr "response.created"), ("response", .vInt 3)]

/-- Witness for C7: a concrete malformed event is dropped while its
neighbours are still emitted. -/
theorem formatting_failure_isolated_witness :
    formatStreamEvent badRawEvent = none ∧
    intermediates ([StreamEvent.runItem "tool_called" none] ++
        badRawEvent :: [StreamEvent.other "SomeEvent" "payload" true]) =
      intermediates [StreamEvent.runItem "tool_called" none] ++
        intermediates [StreamEvent.other "SomeEvent" "payload" true] :=
  ⟨rfl, formatting_failure_isolated badRawEvent rfl _ _⟩

/-! ## Claim C8 -/

/-- C8: an event of an unrecognized class never raises: it is classified
and projected to exactly one `unknown_event` frame carrying the class
name and a best-effort string rendering, and the stream continues to
accept and emit the surrounding events. -/
theorem unknown_event_tagged_and_stream_continues (c s : String) (t : Bool)
    (pre post : List StreamEvent) :
    formatStreamEventE (.other c s t) =
      .ok [("type", .vStr "unknown_event"), ("event_class", .vStr c),
           ("data", if t then .vStr s else .vNone)] ∧
    processEvent (.other c s t) =
      some [("type", .vStr "unknown_event"), ("event_class", .vStr c),
            ("data", if t then .vStr s else .vNone)] ∧
    intermediates (pre ++ .other c s t :: post) =
      intermediates pre ++
        [("type", .vStr "unknown_event"), ("event_class", .vStr c),
         ("data", if t then .vStr s else .vNone)] :: intermediates post := by
  refine ⟨rfl, rfl, ?_⟩
  unfold intermediates
  rw [List.filterMap_append]
  congr 1

/-! ## Claim C9 -/

/-- C9: `info()` returns exactly the bound configuration's values: the
literal static instruction text (or the literal
`"Dynamic instructions (function-based)"` for function-based
instructions), the stringified model identifier, the tool and handoff
counts, and the three endpoint paths derived from the prefix. -/
theorem info_returns_config_values (pfx agentName nm s m : String)
    (hm : m ≠ "") (tls hfs : List String) :
    getAgentInfo ⟨nm, .text s, .mstr m, tls, hfs⟩ pfx agentName =
      { name := agentName, agent_name := nm, instructions := some s,
        model := some m, tools_count := tls.length, handoffs_count := hfs.length,
        endpoints := [("run", pfx ++ "/run"), ("stream", pfx ++ "/stream"),
                      ("info", pfx ++ "/info")] } ∧
    (getAgentInfo ⟨nm, .dynamic, .mstr m, tls, hfs⟩ pfx agentName).instructions =
      some "Dynamic instructions (function-based)" ∧
    ∀ r : String,
      (getAgentInfo ⟨nm, .text s, .mobj r, tls, hfs⟩ pfx agentName).model = some r := by
  refine ⟨?_, rfl, fun r => rfl⟩
  have hmv : mvTruthy (.mstr m) = true := by
    have hie : m.isEmpty = false := by
      rw [Bool.eq_false_iff]
      intro hc
      exact hm ((String.isEmpty_iff m).mp hc)
    simp [mvTruthy, hie]
  unfold getAgentInfo
  rw [hmv]
  rfl

/-- Witness for C9, at the specification's own scenario: static
instructions `"You are helpful"`, model `"gpt-4.1-mini"`, 2 tools, 0
handoffs, prefix `/assistant`. -/
theorem info_returns_config_values_witness :
    ("gpt-4.1-mini" : String) ≠ "" ∧
    getAgentInfo ⟨"assistant_agent", .text "You are helpful", .mstr "gpt-4.1-mini",
        ["t1", "t2"], []⟩ "/assistant" "General Assistant" =
      { name := "General Assistant", agent_name := "assistant_agent",
        instructions := some "You are helpful", model := some "gpt-4.1-mini",
        tools_count := 2, handoffs_count := 0,
        endpoints := [("run", "/assistant/run"), ("stream", "/assistant/stream"),
                      ("info", "/assistant/info")] } :=
  ⟨by decide,
    (info_returns_config_values "/assistant" "General Assistant" "assistant_agent"
      "You are helpful" "gpt-4.1-mini" (by decide) ["t1", "t2"] []).1⟩

/-! ## Claim C10 -/

/-- C10: when projecting an event raises inside the formatter, the
formatter returns `None` and no frame at all is emitted for that event —
it is silently dropped, never replaced by an error-tagged or
unknown-tagged placeholder — while the surrounding events are emitted
unchanged. -/
theorem failed_projection_silently_dropped (e : StreamEvent) (msg : String)
    (h : formatStreamEventE e = .error msg) (pre post : List StreamEvent) :
    formatStreamEvent e = none ∧
    intermediates (pre ++ e :: post) = intermediates pre ++ intermediates post := by
  have ho : formatStreamEvent e = none := by
    unfold formatStreamEvent
    rw [h]
    rfl
  refine ⟨ho, intermediates_skip e ?_ pre post⟩
  unfold processEvent
  rw [ho]

/-- A raw `response.output_item.added` event whose `item` attribute is
not a dict: `.get` raises inside the projector. -/
def badItemEvent : StreamEvent :=
  .raw [("type", .vStr "response.output_item.added"), ("item", .vStr "x")]

/-- Witness for C10: a concrete event whose projection raises is
silently dropped. -/
theorem failed_projection_silently_dropped_witness :
    formatStreamEventE badItemEvent =
      .error "AttributeError: object has no attribute get" ∧
    formatStreamEvent badItemEvent = none ∧
    intermediates ([] ++ badItemEvent :: [StreamEvent.other "Tail" "t" false]) =
      intermediates [] ++ intermediates [StreamEvent.other "Tail" "t" false] :=
  have happ := failed_projection_silently_dropped badItemEvent
    "AttributeError: object has no attribute get" rfl []
    [StreamEvent.other "Tail" "t" false]
  ⟨rfl, happ.1, happ.2⟩
